import Mathlib

/-!
Formal model of the dashboard repository's query layer.

The TypeScript sources are embedded shallowly: `linq` enumerables become
`List`, JavaScript `Map` lookups become `Option`-returning functions,
JavaScript numbers become `ℚ`, and `undefined`/missing values become
`Option`.  Each definition mirrors one function of the sources
(`src/utils/linqHelpers.ts`, `src/utils/metrics.ts`,
`src/config/cardConfigs.ts`, `src/types/dashboard.ts`); the semantic
metrics engine sketched in `PRD.md` is modelled separately at the end of
the definitions.
-/

namespace Dashboard

/-- Data model from `src/types/dashboard.ts` (`User`). Department strings are
the five literals of the `Department` union; modelled as `String`, matching
the JavaScript runtime representation. -/
structure User where
  id : String
  fullName : String
  department : String
  role : String
  location : String
deriving DecidableEq

/-- Data model from `src/types/dashboard.ts` (`Course`). -/
structure Course where
  id : String
  title : String
  category : String
  difficulty : String
  hours : ℚ
deriving DecidableEq

/-- Data model from `src/types/dashboard.ts` (`Proctor`). -/
structure Proctor where
  id : String
  fullName : String
  location : String
deriving DecidableEq

/-- The `EnrollmentStatus` union `'completed' | 'in-progress' | 'failed'`. -/
inductive EnrollmentStatus where
  | completed
  | inProgress
  | failed
deriving DecidableEq

/-- Data model from `src/types/dashboard.ts` (`Enrollment`).  `completedAt?`
is an optional ISO date string, hence `Option String`. -/
structure Enrollment where
  id : String
  userId : String
  courseId : String
  proctorId : String
  status : EnrollmentStatus
  score : ℚ
  completedAt : Option String
  hoursSpent : ℚ
deriving DecidableEq

/-- Data model from `src/types/dashboard.ts` (`MiniDatabase`). -/
structure MiniDatabase where
  users : List User
  courses : List Course
  proctors : List Proctor
  enrollments : List Enrollment
deriving DecidableEq

/-- The dashboard filter value for `status`: either the literal `'all'` or a
concrete `EnrollmentStatus`. -/
inductive StatusFilter where
  | all
  | only (s : EnrollmentStatus)
deriving DecidableEq

/-- Data model from `src/types/dashboard.ts` (`DashboardFilters`); every
field is optional. -/
structure DashboardFilters where
  department : Option String
  courseCategory : Option String
  status : Option StatusFilter
  search : Option String
deriving DecidableEq

/-- Query context from `src/types/dashboard.ts` (`QueryContext`): the data
and the active filters.  The `lookups` maps of `createLookups` are derived
data; they are modelled by the lookup functions below applied to `data`. -/
structure QueryContext where
  data : MiniDatabase
  filters : DashboardFilters
deriving DecidableEq

/-- Mirrors `createQueryContext` of `src/utils/linqHelpers.ts`. -/
def createQueryContext (data : MiniDatabase) (filters : DashboardFilters) :
    QueryContext :=
  { data := data, filters := filters }

/-- Models `lookups.usersById.get k` where `usersById` is built by
`createLookups` as `new Map(data.users.map(u => [u.id, u]))`; for duplicate
ids the later entry wins, hence the search over the reversed list. -/
def usersById (data : MiniDatabase) (k : String) : Option User :=
  data.users.reverse.find? (fun u => u.id == k)

/-- Models `lookups.coursesById.get k` from `createLookups`. -/
def coursesById (data : MiniDatabase) (k : String) : Option Course :=
  data.courses.reverse.find? (fun c => c.id == k)

/-- Models `lookups.proctorsById.get k` from `createLookups`. -/
def proctorsById (data : MiniDatabase) (k : String) : Option Proctor :=
  data.proctors.reverse.find? (fun p => p.id == k)

/-- Boolean test whether the character list `needle` is an initial segment
of `hay`; helper for `stringIncludes`. -/
def charsStart : List Char → List Char → Bool
  | [], _ => true
  | _ :: _, [] => false
  | a :: as, b :: bs => a == b && charsStart as bs

/-- Boolean substring test on character lists; helper for `stringIncludes`. -/
def charsContain (needle : List Char) : List Char → Bool
  | [] => needle.isEmpty
  | b :: bs => charsStart needle (b :: bs) || charsContain needle bs

/-- Models the JavaScript `hay.includes(needle)` substring test. -/
def stringIncludes (hay needle : String) : Bool :=
  charsContain needle.toList hay.toList

/-- Models JavaScript `toLowerCase()` as per-character lowering (the data
model is ASCII); written through `List.map` so it evaluates structurally. -/
def toLowerStr (s : String) : String :=
  ⟨s.toList.map Char.toLower⟩


/-- The body of the `where` callback of the `filters.search` block of
`filteredEnrollments` (`src/utils/linqHelpers.ts` lines 49-56): the row
matches when the lowered search string occurs in the lowered user full name
or in the lowered course title; a failed lookup contributes `false`
(optional chaining yields `undefined`, which is falsy). -/
def searchMatches (ctx : QueryContext) (lowered : String) (e : Enrollment) :
    Bool :=
  (match usersById ctx.data e.userId with
    | some u => stringIncludes (toLowerStr u.fullName) lowered
    | none => false) ||
  (match coursesById ctx.data e.courseId with
    | some c => stringIncludes (toLowerStr c.title) lowered
    | none => false)

/-- The body of the `where` callback of the `filters.department` block of
`filteredEnrollments`: `usersById.get(e.userId)?.department === d`, with a
missing user giving `undefined === d`, i.e. `false`. -/
def departmentTest (ctx : QueryContext) (d : String) (e : Enrollment) :
    Bool :=
  match usersById ctx.data e.userId with
  | some u => u.department == d
  | none => false

/-- The body of the `where` callback of the `filters.courseCategory` block
of `filteredEnrollments`: `coursesById.get(e.courseId)?.category === c`. -/
def courseCategoryTest (ctx : QueryContext) (c : String) (e : Enrollment) :
    Bool :=
  match coursesById ctx.data e.courseId with
  | some co => co.category == c
  | none => false

/-- Stage 1 of `filteredEnrollments`: the block
`if (filters.status && filters.status !== 'all') query = query.where(...)`.
An absent status and the (truthy) literal `'all'` leave the query
unchanged. -/
def statusStage (ctx : QueryContext) (q : List Enrollment) :
    List Enrollment :=
  match ctx.filters.status with
  | some (StatusFilter.only s) => q.filter (fun e => e.status == s)
  | some StatusFilter.all => q
  | none => q

/-- Stage 2 of `filteredEnrollments`: the block
`if (filters.department) query = query.where(...)`.  JavaScript truthiness
makes the empty string skip the filter as well. -/
def departmentStage (ctx : QueryContext) (q : List Enrollment) :
    List Enrollment :=
  match ctx.filters.department with
  | some d => if d == "" then q else q.filter (departmentTest ctx d)
  | none => q

/-- Stage 3 of `filteredEnrollments`: the `filters.courseCategory` block. -/
def courseCategoryStage (ctx : QueryContext) (q : List Enrollment) :
    List Enrollment :=
  match ctx.filters.courseCategory with
  | some c => if c == "" then q else q.filter (courseCategoryTest ctx c)
  | none => q

/-- Stage 4 of `filteredEnrollments`: the `filters.search` block, which
lowers the search string once and keeps matching rows. -/
def searchStage (ctx : QueryContext) (q : List Enrollment) :
    List Enrollment :=
  match ctx.filters.search with
  | some s => if s == "" then q else q.filter (searchMatches ctx (toLowerStr s))
  | none => q

/-- Mirrors `filteredEnrollments` of `src/utils/linqHelpers.ts`: the four
conditional `where` blocks applied in source order to `data.enrollments`. -/
def filteredEnrollments (ctx : QueryContext) : List Enrollment :=
  searchStage ctx
    (courseCategoryStage ctx
      (departmentStage ctx
        (statusStage ctx ctx.data.enrollments)))

/-- Predicate form of stage 1: the status filter as it applies to one row
(`true` when the filter is inactive). -/
def statusPass (ctx : QueryContext) (e : Enrollment) : Bool :=
  match ctx.filters.status with
  | some (StatusFilter.only s) => e.status == s
  | some StatusFilter.all => true
  | none => true

/-- Predicate form of stage 2. -/
def departmentPass (ctx : QueryContext) (e : Enrollment) : Bool :=
  match ctx.filters.department with
  | some d => if d == "" then true else departmentTest ctx d e
  | none => true

/-- Predicate form of stage 3. -/
def courseCategoryPass (ctx : QueryContext) (e : Enrollment) : Bool :=
  match ctx.filters.courseCategory with
  | some c => if c == "" then true else courseCategoryTest ctx c e
  | none => true

/-- Predicate form of stage 4. -/
def searchPass (ctx : QueryContext) (e : Enrollment) : Bool :=
  match ctx.filters.search with
  | some s => if s == "" then true else searchMatches ctx (toLowerStr s) e
  | none => true

/-- Models `Number(x.toFixed(1))`: rounding to one decimal, ties away from
the smaller value (ECMAScript `toFixed` picks the larger candidate). -/
def roundTo1 (q : ℚ) : ℚ :=
  (round (q * 10) : ℤ) / 10

/-- Models the `values.sum(n => n)` helper `sum` of
`src/utils/linqHelpers.ts`: iterated addition starting at `0`. -/
def sumList (values : List ℚ) : ℚ :=
  values.foldl (· + ·) 0

/-- Mirrors `average` of `src/utils/linqHelpers.ts`: an `aggregate` fold
accumulating `sum` and `count`, returning `0` for an empty input and the
rounded mean otherwise. -/
def average (values : List ℚ) : ℚ :=
  let acc := values.foldl
    (fun acc current => (acc.1 + current, acc.2 + 1)) ((0 : ℚ), (0 : ℕ))
  if acc.2 = 0 then 0 else roundTo1 (acc.1 / acc.2)

/-- Models the `linq` package's `.average()`: it divides the running sum by
the element count, so an empty input produces `0/0 = NaN`; `NaN` (the only
non-finite outcome over finite inputs) is modelled as `none`. -/
def linqAverage (values : List ℚ) : Option ℚ :=
  if values.length = 0 then none
  else some (values.foldl (· + ·) 0 / values.length)

/-- Mirrors `safeAverage` of `src/utils/metrics.ts` at its (only used)
default precision `1`: a non-finite `.average()` result — the empty-input
`NaN` — is replaced by `0`, otherwise the value is rounded via
`toFixed(1)`. -/
def safeAverage (values : List ℚ) : ℚ :=
  match linqAverage values with
  | none => 0
  | some a => roundTo1 a

/-- Models `linq` `.distinct()`: first occurrence of each element kept, in
encounter order. -/
def distinctList {α : Type} [BEq α] (l : List α) : List α :=
  l.foldl (fun acc a => if acc.contains a then acc else acc ++ [a]) []

/-- The group keys produced by `linq` `.groupBy`: one key per first
occurrence, in encounter order. -/
def firstSeenKeys {α κ : Type} [BEq κ] (l : List α) (key : α → κ) :
    List κ :=
  l.foldl (fun acc a => if acc.contains (key a) then acc else acc ++ [key a])
    []

/-- Models `linq` `.groupBy(keySelector, undefined, resultSelector)`:
groups appear in order of their key's first occurrence, each group keeping
the element order of the input. -/
def groupByList {α κ β : Type} [BEq κ] (l : List α) (key : α → κ)
    (res : κ → List α → β) : List β :=
  (firstSeenKeys l key).map (fun k => res k (l.filter (fun a => key a == k)))

/-- Models `linq` `.join(inner, outerKey, innerKey, result)`: for each outer
element in order, the matching inner elements in order. -/
def joinLists {α β κ γ : Type} [BEq κ] (outer : List α) (inner : List β)
    (outerKey : α → κ) (innerKey : β → κ) (res : α → β → γ) : List γ :=
  outer.foldr
    (fun a acc =>
      ((inner.filter (fun b => innerKey b == outerKey a)).map (res a)) ++ acc)
    []

/-- Insertion step of the stable descending sort: the new element is placed
before the first element with a strictly smaller key, hence after all
earlier elements with an equal key. -/
def insertDescBy {α β : Type} [LinearOrder β] (key : α → β) (a : α) :
    List α → List α
  | [] => [a]
  | b :: bs => if key b ≤ key a then a :: b :: bs else b :: insertDescBy key a bs

/-- Models `linq` `.orderByDescending(selector)` (a stable sort) as a stable
insertion sort, descending by the selected key. -/
def sortDescBy {α β : Type} [LinearOrder β] (key : α → β) :
    List α → List α
  | [] => []
  | a :: as => insertDescBy key a (sortDescBy key as)

/-- Inserts a comma before every third digit of the reversed digit list;
helper for `formatNumber`. -/
def commaRev : ℕ → List Char → List Char
  | _, [] => []
  | i, c :: cs =>
      (if i ≠ 0 ∧ i % 3 = 0 then [',', c] else [c]) ++ commaRev (i + 1) cs

/-- Mirrors `formatNumber` of `src/utils/linqHelpers.ts`
(`value.toLocaleString()`) for the natural-number counts it is applied to:
decimal digits with thousands separators. -/
def formatNumber (n : ℕ) : String :=
  ⟨(commaRev 0 (toString n).toList.reverse).reverse⟩

/-- Mirrors `formatPercent` of `src/utils/linqHelpers.ts`:
`Math.round(value * 100) + '%'` (`Math.round` rounds halves up). -/
def formatPercent (value : ℚ) : String :=
  toString (round (value * 100) : ℤ) ++ "%"

/-- Renders a nonnegative integer number of tenths as a one-decimal string;
helper for `formatHours`. -/
def tenthsToString (n : ℤ) : String :=
  toString (n / 10) ++ "." ++ toString (n % 10)

/-- Models `value.toFixed(1)`: the closest one-decimal rendering, negative
values rendered with a leading minus sign. -/
def toFixed1 (q : ℚ) : String :=
  let n : ℤ := round (q * 10)
  if n < 0 then "-" ++ tenthsToString (-n) else tenthsToString n

/-- Mirrors `formatHours` of `src/utils/linqHelpers.ts`:
`value.toFixed(1) + ' hrs'`. -/
def formatHours (value : ℚ) : String :=
  toFixed1 value ++ " hrs"

/-- Abstracts `new Date(s).toLocaleDateString()` of the completed-total
detail query.  The rendering depends on the host locale but is a fixed pure
function within any one evaluation environment; the model only relies on it
being some fixed function of the date string. -/
def formatDateLocale (s : String) : String :=
  s

/-- Mirrors `enrollmentsByStatus` of `src/utils/metrics.ts`. -/
def enrollmentsByStatus (s : EnrollmentStatus) (ctx : QueryContext) :
    List Enrollment :=
  (filteredEnrollments ctx).filter (fun e => e.status == s)

/-- Mirrors `completedEnrollments` of `src/utils/metrics.ts`. -/
def completedEnrollments : QueryContext → List Enrollment :=
  enrollmentsByStatus EnrollmentStatus.completed

/-- Mirrors `activeEnrollments` of `src/utils/metrics.ts`. -/
def activeEnrollments : QueryContext → List Enrollment :=
  enrollmentsByStatus EnrollmentStatus.inProgress

/-- Mirrors `failedEnrollments` of `src/utils/metrics.ts`. -/
def failedEnrollments : QueryContext → List Enrollment :=
  enrollmentsByStatus EnrollmentStatus.failed

/-- Mirrors `categoryFromEnrollment` of `src/utils/metrics.ts`:
`coursesById.get(e.courseId)?.category ?? 'Unknown'`. -/
def categoryFromEnrollment (ctx : QueryContext) (e : Enrollment) : String :=
  ((coursesById ctx.data e.courseId).map Course.category).getD "Unknown"

/-- The `groupBy` key of `proctorSummary`:
`proctorsById.get(e.proctorId)?.fullName ?? 'Unknown'`. -/
def proctorName (ctx : QueryContext) (e : Enrollment) : String :=
  ((proctorsById ctx.data e.proctorId).map Proctor.fullName).getD "Unknown"

/-- The `groupBy` key of `departmentAverages`:
`usersById.get(e.userId)?.department ?? 'Unknown'`. -/
def departmentName (ctx : QueryContext) (e : Enrollment) : String :=
  ((usersById ctx.data e.userId).map User.department).getD "Unknown"

/-- Mirrors `joinEnrollmentsWithCourses` of `src/utils/metrics.ts`: the
filtered enrollments joined with the course list on `courseId = id`. -/
def joinEnrollmentsWithCourses (ctx : QueryContext) :
    List (Enrollment × Course) :=
  joinLists (filteredEnrollments ctx) ctx.data.courses
    Enrollment.courseId Course.id Prod.mk

/-- Result shape of `categoryLeaderboard`. -/
structure CategoryLeaderboardEntry where
  category : String
  completions : ℕ
  uniqueLearners : ℕ
  averageScore : ℚ
deriving DecidableEq

/-- Mirrors `categoryLeaderboard` of `src/utils/metrics.ts`. -/
def categoryLeaderboard (ctx : QueryContext) :
    List CategoryLeaderboardEntry :=
  sortDescBy (fun r => r.completions)
    (groupByList (completedEnrollments ctx) (categoryFromEnrollment ctx)
      (fun k group =>
        { category := k
          completions := group.length
          uniqueLearners := (distinctList (group.map Enrollment.userId)).length
          averageScore := safeAverage (group.map Enrollment.score) }))

/-- Result shape of `proctorSummary`. -/
structure ProctorSummaryEntry where
  proctor : String
  total : ℕ
  completions : ℕ
  averageScore : ℚ
deriving DecidableEq

/-- Mirrors `proctorSummary` of `src/utils/metrics.ts`. -/
def proctorSummary (ctx : QueryContext) : List ProctorSummaryEntry :=
  sortDescBy (fun r => r.total)
    (groupByList (filteredEnrollments ctx) (proctorName ctx)
      (fun k group =>
        { proctor := k
          total := group.length
          completions :=
            (group.filter
              (fun e => e.status == EnrollmentStatus.completed)).length
          averageScore := safeAverage (group.map Enrollment.score) }))

/-- Mirrors `totalEnrollmentCount` of `src/utils/metrics.ts`. -/
def totalEnrollmentCount (ctx : QueryContext) : ℕ :=
  (filteredEnrollments ctx).length

/-- Mirrors `completedEnrollmentCount` of `src/utils/metrics.ts`. -/
def completedEnrollmentCount (ctx : QueryContext) : ℕ :=
  (completedEnrollments ctx).length

/-- Mirrors `activeEnrollmentCount` of `src/utils/metrics.ts`. -/
def activeEnrollmentCount (ctx : QueryContext) : ℕ :=
  (activeEnrollments ctx).length

/-- Mirrors `failedEnrollmentCount` of `src/utils/metrics.ts`. -/
def failedEnrollmentCount (ctx : QueryContext) : ℕ :=
  (failedEnrollments ctx).length

/-- Mirrors `failureRate` of `src/utils/metrics.ts`: `0` when the filtered
total is `0`, otherwise the failed count divided by the total. -/
def failureRate (ctx : QueryContext) : ℚ :=
  if totalEnrollmentCount ctx = 0 then 0
  else (failedEnrollmentCount ctx : ℚ) / (totalEnrollmentCount ctx : ℚ)

/-- Mirrors `completedAverageScore` of `src/utils/metrics.ts`. -/
def completedAverageScore (ctx : QueryContext) : ℚ :=
  safeAverage ((completedEnrollments ctx).map Enrollment.score)

/-- Result shape of `departmentAverages`. -/
structure DepartmentAverageEntry where
  department : String
  averageScore : ℚ
  completions : ℕ
deriving DecidableEq

/-- Mirrors `departmentAverages` of `src/utils/metrics.ts`. -/
def departmentAverages (ctx : QueryContext) : List DepartmentAverageEntry :=
  sortDescBy (fun r => r.averageScore)
    (groupByList
      ((filteredEnrollments ctx).filter
        (fun e => !(e.status == EnrollmentStatus.inProgress)))
      (departmentName ctx)
      (fun k group =>
        { department := k
          averageScore := safeAverage (group.map Enrollment.score)
          completions :=
            (group.filter
              (fun e => e.status == EnrollmentStatus.completed)).length }))

/-- Mirrors `totalLoggedHours` of `src/utils/metrics.ts`. -/
def totalLoggedHours (ctx : QueryContext) : ℚ :=
  sumList ((filteredEnrollments ctx).map Enrollment.hoursSpent)

/-- Mirrors `totalPlannedHours` of `src/utils/metrics.ts`. -/
def totalPlannedHours (ctx : QueryContext) : ℚ :=
  sumList ((joinEnrollmentsWithCourses ctx).map (fun p => p.2.hours))

/-- Mirrors `hourUtilization` of `src/utils/metrics.ts`. -/
def hourUtilization (ctx : QueryContext) : ℚ :=
  if totalPlannedHours ctx = 0 then 0
  else totalLoggedHours ctx / totalPlannedHours ctx

/-- A JavaScript `string | number` value, used by card summaries. -/
inductive JsValue where
  | str (s : String)
  | num (q : ℚ)
deriving DecidableEq

/-- Data model from `src/types/dashboard.ts` (`CardSummaryResult`). -/
structure CardSummaryResult where
  label : String
  value : JsValue
  trendLabel : Option String
deriving DecidableEq

/-- Mirrors the `summaryQuery` of the `completed-total` card of
`src/config/cardConfigs.ts`. -/
def completedTotalSummary (ctx : QueryContext) : CardSummaryResult :=
  { label := "Total completions"
    value := JsValue.str (formatNumber (completedEnrollmentCount ctx))
    trendLabel :=
      some (formatNumber (activeEnrollmentCount ctx) ++ " active learners") }

/-- Detail row shape of the `completed-total` card. -/
structure CompletedDetailRow where
  Learner : String
  Department : String
  Course : String
  Score : ℚ
  Completed : String
deriving DecidableEq

/-- The `select` callback of the `completed-total` detail query: lookups
falling back to `'Unknown'` / `'N/A'` via `??`, and `completedAt`
rendered as a locale date when truthy, `'—'` otherwise. -/
def completedDetailRowOf (ctx : QueryContext) (e : Enrollment) :
    CompletedDetailRow :=
  { Learner := ((usersById ctx.data e.userId).map User.fullName).getD "Unknown"
    Department :=
      ((usersById ctx.data e.userId).map User.department).getD "N/A"
    Course := ((coursesById ctx.data e.courseId).map Course.title).getD "Unknown"
    Score := e.score
    Completed :=
      match e.completedAt with
      | some s => if s == "" then "—" else formatDateLocale s
      | none => "—" }

/-- Mirrors the `detailQuery` of the `completed-total` card: completed
enrollments ordered descending by `completedAt ?? ''`, projected to rows,
first 15 kept. -/
def completedTotalDetail (ctx : QueryContext) : List CompletedDetailRow :=
  (((sortDescBy (fun e => e.completedAt.getD "") (completedEnrollments ctx))).map
    (completedDetailRowOf ctx)).take 15

/-- Mirrors the `summaryQuery` of the `average-score` card. -/
def averageScoreSummary (ctx : QueryContext) : CardSummaryResult :=
  { label := "Mean score (completed)"
    value := JsValue.num (completedAverageScore ctx)
    trendLabel := some (formatPercent (failureRate ctx) ++ " failure rate") }

/-- Detail row shape of the `average-score` card. -/
structure DepartmentDetailRow where
  Department : String
  AverageScore : ℚ
  Completions : ℕ
deriving DecidableEq

/-- Mirrors the `detailQuery` of the `average-score` card. -/
def averageScoreDetail (ctx : QueryContext) : List DepartmentDetailRow :=
  (departmentAverages ctx).map
    (fun entry =>
      { Department := entry.department
        AverageScore := entry.averageScore
        Completions := entry.completions })

/-- Mirrors the `summaryQuery` of the `category-leaders` card:
`categories[0]` when present, with the trend label only when both a leading
category exists and the total count is truthy (nonzero). -/
def categoryLeadersSummary (ctx : QueryContext) : CardSummaryResult :=
  let categories := categoryLeaderboard ctx
  let share := totalEnrollmentCount ctx
  match categories.head? with
  | some top =>
      { label := "Leading: " ++ top.category
        value := JsValue.str (formatNumber top.completions)
        trendLabel :=
          if share ≠ 0 then
            some (formatPercent ((top.completions : ℚ) / (share : ℚ)))
          else none }
  | none =>
      { label := "No completions", value := JsValue.num 0, trendLabel := none }

/-- Detail row shape of the `category-leaders` card. -/
structure CategoryDetailRow where
  Category : String
  Completions : ℕ
  UniqueLearners : ℕ
  AvgScore : ℚ
deriving DecidableEq

/-- Mirrors the `detailQuery` of the `category-leaders` card. -/
def categoryLeadersDetail (ctx : QueryContext) : List CategoryDetailRow :=
  (categoryLeaderboard ctx).map
    (fun entry =>
      { Category := entry.category
        Completions := entry.completions
        UniqueLearners := entry.uniqueLearners
        AvgScore := entry.averageScore })

/-- Mirrors the `summaryQuery` of the `learning-hours` card. -/
def learningHoursSummary (ctx : QueryContext) : CardSummaryResult :=
  { label := "Logged vs. planned hours"
    value := JsValue.str (formatHours (totalLoggedHours ctx))
    trendLabel := some (formatPercent (hourUtilization ctx) ++ " of planned") }

/-- Detail row shape of the `learning-hours` card. -/
structure HoursDetailRow where
  Learner : String
  Course : String
  Status : EnrollmentStatus
  HoursSpent : ℚ
  PlannedHours : ℚ
deriving DecidableEq

/-- Mirrors the `detailQuery` of the `learning-hours` card: the
enrollment-course join projected to rows (`Number(hoursSpent.toFixed(1))`
modelled by `roundTo1`), ordered descending by `HoursSpent`, first 15
kept. -/
def learningHoursDetail (ctx : QueryContext) : List HoursDetailRow :=
  ((sortDescBy (fun r => r.HoursSpent)
    ((joinEnrollmentsWithCourses ctx).map
      (fun p =>
        { Learner :=
            ((usersById ctx.data p.1.userId).map User.fullName).getD "Unknown"
          Course := p.2.title
          Status := p.1.status
          HoursSpent := roundTo1 p.1.hoursSpent
          PlannedHours := p.2.hours })))).take 15

/-- Mirrors the `summaryQuery` of the `proctor-utilization` card:
`perProctor[0]` when present, the completion-rate divisor guarded by
`busiest.total || 1`. -/
def proctorUtilizationSummary (ctx : QueryContext) : CardSummaryResult :=
  match (proctorSummary ctx).head? with
  | some busiest =>
      { label := busiest.proctor
        value := JsValue.str (formatNumber busiest.total)
        trendLabel :=
          some (formatPercent
            ((busiest.completions : ℚ) /
              ((if busiest.total = 0 then 1 else busiest.total : ℕ) : ℚ)) ++
            " completion rate") }
  | none =>
      { label := "No activity", value := JsValue.num 0, trendLabel := none }

/-- Detail row shape of the `proctor-utilization` card. -/
structure ProctorDetailRow where
  Proctor : String
  Sessions : ℕ
  Completions : ℕ
  AvgScore : ℚ
deriving DecidableEq

/-- Mirrors the `detailQuery` of the `proctor-utilization` card. -/
def proctorUtilizationDetail (ctx : QueryContext) : List ProctorDetailRow :=
  (proctorSummary ctx).map
    (fun entry =>
      { Proctor := entry.proctor
        Sessions := entry.total
        Completions := entry.completions
        AvgScore := entry.averageScore })

/-- The combined output of every card's summary and detail query. -/
structure DashboardOutput where
  completedTotal : CardSummaryResult × List CompletedDetailRow
  averageScore : CardSummaryResult × List DepartmentDetailRow
  categoryLeaders : CardSummaryResult × List CategoryDetailRow
  learningHours : CardSummaryResult × List HoursDetailRow
  proctorUtilization : CardSummaryResult × List ProctorDetailRow
deriving DecidableEq

/-- The top-level query entry point: builds the query context from the
database and the filter state (`createQueryContext`) and runs every card's
`summaryQuery` and `detailQuery` of `src/config/cardConfigs.ts`. -/
def runDashboard (db : MiniDatabase) (fs : DashboardFilters) :
    DashboardOutput :=
  let ctx := createQueryContext db fs
  { completedTotal := (completedTotalSummary ctx, completedTotalDetail ctx)
    averageScore := (averageScoreSummary ctx, averageScoreDetail ctx)
    categoryLeaders := (categoryLeadersSummary ctx, categoryLeadersDetail ctx)
    learningHours := (learningHoursSummary ctx, learningHoursDetail ctx)
    proctorUtilization :=
      (proctorUtilizationSummary ctx, proctorUtilizationDetail ctx) }

end Dashboard

namespace SemanticEngine

/-- A scalar value of the semantic metrics engine of `PRD.md`: fact rows and
filter contexts hold numbers or strings. -/
inductive Scalar where
  | num (q : ℚ)
  | str (s : String)
deriving DecidableEq

/-- Comparison operators of PRD section 5: `lte`, `gte`, `lt`, `gt`. -/
inductive CmpOp where
  | lte
  | gte
  | lt
  | gt
deriving DecidableEq

/-- A single filter of a filter context, per PRD section 5 and spec
section 4.1: scalar equality, an inclusive range with optional bounds, or a
single comparison. -/
inductive ContextFilter where
  | eq (v : Scalar)
  | range (lo hi : Option ℚ)
  | cmp (op : CmpOp) (bound : ℚ)
deriving DecidableEq

/-- A filter context: a JavaScript object mapping dimension keys to
filters, modelled as an association list so that key insertion order is
preserved (as it is by JavaScript objects and `JSON.stringify`). -/
abbrev FilterContext := List (String × ContextFilter)

/-- A fact row: a flat record of dimension and measure values. -/
abbrev FactRow := List (String × Scalar)

/-- Field access on a fact row (JavaScript object property lookup; keys of
a record are unique, so the first match is the value). -/
def rowGet (r : FactRow) (k : String) : Option Scalar :=
  (r.find? (fun p => p.1 == k)).map Prod.snd

/-- Numeric view of a scalar: range and comparison filters compare
numbers; a string value fails them. -/
def scalarNum : Scalar → Option ℚ
  | Scalar.num q => some q
  | Scalar.str _ => none

/-- Modelled from the spec: whether one filter accepts one row value.
Spec section 4.1 — scalar filters require exact equality; range filters
require `from ≤ value ≤ to`, inclusive, with an absent bound unbounded;
comparison filters require the single stated relation. -/
def matchesFilter (f : ContextFilter) (v : Scalar) : Bool :=
  match f with
  | ContextFilter.eq w => v == w
  | ContextFilter.range lo hi =>
      (match scalarNum v with
        | some q =>
            (match lo with
              | some l => decide (l ≤ q)
              | none => true) &&
            (match hi with
              | some h => decide (q ≤ h)
              | none => true)
        | none => false)
  | ContextFilter.cmp op b =>
      (match scalarNum v with
        | some q =>
            (match op with
              | CmpOp.lte => decide (q ≤ b)
              | CmpOp.gte => decide (b ≤ q)
              | CmpOp.lt => decide (q < b)
              | CmpOp.gt => decide (b < q))
        | none => false)

/-- Whether a context entry's key belongs to the metric grain. -/
def inGrain (grain : List String) (p : String × ContextFilter) : Bool :=
  grain.contains p.1

/-- Modelled from the spec: how one context entry applies to a row.  Spec
section 4.1 — a key not in the grain is skipped entirely (the entry passes
vacuously); for a key in the grain the row value is tested, and a row
lacking the field fails the filter. -/
def entryPasses (grain : List String) (r : FactRow)
    (p : String × ContextFilter) : Bool :=
  if inGrain grain p then
    (match rowGet r p.1 with
      | some v => matchesFilter p.2 v
      | none => false)
  else true

/-- Modelled from the spec: whether a row passes a whole filter context at
a given metric grain — it must pass every applicable filter (implicit
AND).  Spec section 4.1. -/
def rowPassesContext (ctx : FilterContext) (grain : List String)
    (r : FactRow) : Bool :=
  ctx.all (entryPasses grain r)

/-- Modelled from the spec: `applyContextToFact(rows, context, grain)` of
PRD section 5, whose implementation is absent from the repository (the PRD
gives only its signature and behaviour).  Spec section 4.1 — a stable
filter of the rows by the grain-aware context test. -/
def applyContextToFact (rows : List FactRow) (ctx : FilterContext)
    (grain : List String) : List FactRow :=
  rows.filter (rowPassesContext ctx grain)

/-- JSON rendering of a number (contexts hold integral values such as
`2025`; an integral rational prints without a denominator, as
`JSON.stringify` prints a JavaScript integer). -/
def jsonOfRat (q : ℚ) : String :=
  if q.den = 1 then toString q.num else toString q

/-- JSON rendering of a scalar, as `JSON.stringify` produces it. -/
def jsonOfScalar : Scalar → String
  | Scalar.num q => jsonOfRat q
  | Scalar.str s => "\x22" ++ s ++ "\x22"

/-- The JSON property name of a comparison operator. -/
def cmpOpName : CmpOp → String
  | CmpOp.lte => "lte"
  | CmpOp.gte => "gte"
  | CmpOp.lt => "lt"
  | CmpOp.gt => "gt"

/-- JSON rendering of one context filter value (`JSON.stringify` omits
`undefined` range bounds, as it omits absent object properties). -/
def jsonOfContextFilter : ContextFilter → String
  | ContextFilter.eq v => jsonOfScalar v
  | ContextFilter.range lo hi =>
      "\x7b" ++
        String.intercalate ","
          ((match lo with
             | some l => ["\x22from\x22:" ++ jsonOfRat l]
             | none => []) ++
           (match hi with
             | some h => ["\x22to\x22:" ++ jsonOfRat h]
             | none => [])) ++ "\x7d"
  | ContextFilter.cmp op b =>
      "\x7b\x22" ++ cmpOpName op ++ "\x22:" ++ jsonOfRat b ++ "\x7d"

/-- Models `JSON.stringify(context)`: object properties serialized in key
insertion order, exactly the order of the association list. -/
def jsonOfContext (ctx : FilterContext) : String :=
  "\x7b" ++
    String.intercalate ","
      (ctx.map (fun p => "\x22" ++ p.1 ++ "\x22:" ++ jsonOfContextFilter p.2)) ++
    "\x7d"

/-- Mirrors the memoization key of PRD section 6:
`cacheKey = metricName + JSON.stringify(context)`. -/
def cacheKey (metricName : String) (ctx : FilterContext) : String :=
  metricName ++ jsonOfContext ctx

/-- The example grain `['year','regionId']` of spec section 8. -/
def grainYearRegion : List String :=
  ["year", "regionId"]

/-- The example context `{year:2025, regionId:'NA', productId:1}`. -/
def ctxYearRegionProduct : FilterContext :=
  [("year", ContextFilter.eq (Scalar.num 2025)),
   ("regionId", ContextFilter.eq (Scalar.str "NA")),
   ("productId", ContextFilter.eq (Scalar.num 1))]

/-- The example context `{year:2025, regionId:'NA'}`. -/
def ctxYearRegion : FilterContext :=
  [("year", ContextFilter.eq (Scalar.num 2025)),
   ("regionId", ContextFilter.eq (Scalar.str "NA"))]

/-- The example context `{regionId:'NA', year:2025}`: the same key-value
pairs as `ctxYearRegion`, inserted in the opposite order. -/
def ctxRegionYear : FilterContext :=
  [("regionId", ContextFilter.eq (Scalar.str "NA")),
   ("year", ContextFilter.eq (Scalar.num 2025))]

end SemanticEngine

namespace Dashboard

/-- Concrete user for witness databases. -/
def aliceUser : User :=
  { id := "u1", fullName := "Alice Johnson", department := "Engineering"
    role := "Engineer", location := "NYC" }

/-- Concrete course for witness databases. -/
def securityCourse : Course :=
  { id := "c1", title := "Security Essentials", category := "Security"
    difficulty := "Beginner", hours := 6 }

/-- Concrete proctor for witness databases. -/
def oliviaProctor : Proctor :=
  { id := "p1", fullName := "Olivia Roberts", location := "NYC" }

/-- An enrollment whose references all resolve. -/
def aliceEnrollment : Enrollment :=
  { id := "e1", userId := "u1", courseId := "c1", proctorId := "p1"
    status := EnrollmentStatus.completed, score := 91
    completedAt := some "2024-05-01", hoursSpent := 5 }

/-- An enrollment whose `userId`, `courseId` and `proctorId` resolve to no
user, course or proctor. -/
def ghostEnrollment : Enrollment :=
  { id := "e2", userId := "ghostU", courseId := "ghostC"
    proctorId := "ghostP", status := EnrollmentStatus.completed, score := 50
    completedAt := none, hoursSpent := 2 }

/-- A small witness database with one resolvable and one dangling
enrollment. -/
def witnessDb : MiniDatabase :=
  { users := [aliceUser], courses := [securityCourse]
    proctors := [oliviaProctor]
    enrollments := [aliceEnrollment, ghostEnrollment] }

/-- A fully empty witness database. -/
def emptyDb : MiniDatabase :=
  { users := [], courses := [], proctors := [], enrollments := [] }

/-- Filter state with every filter unset. -/
def noFilters : DashboardFilters :=
  { department := none, courseCategory := none, status := none
    search := none }

/-- Filter state selecting the Engineering department only. -/
def deptFilters : DashboardFilters :=
  { department := some "Engineering", courseCategory := none, status := none
    search := none }

/-- Filter state with only the search string `alice`. -/
def searchFilters : DashboardFilters :=
  { department := none, courseCategory := none, status := none
    search := some "alice" }

end Dashboard

open Dashboard SemanticEngine

/-- Membership in stage 1 is membership in the input plus the status
predicate. -/
theorem mem_statusStage (ctx : QueryContext) (q : List Enrollment)
    (e : Enrollment) :
    e ∈ statusStage ctx q ↔ e ∈ q ∧ statusPass ctx e = true := by
  unfold statusStage statusPass
  rcases hs : ctx.filters.status with _ | (_ | s) <;>
    simp [List.mem_filter]

/-- Membership in stage 2 is membership in the input plus the department
predicate. -/
theorem mem_departmentStage (ctx : QueryContext) (q : List Enrollment)
    (e : Enrollment) :
    e ∈ departmentStage ctx q ↔ e ∈ q ∧ departmentPass ctx e = true := by
  unfold departmentStage departmentPass
  rcases hd : ctx.filters.department with _ | d
  · simp
  · by_cases he : d == "" <;> simp [he, List.mem_filter]

/-- Membership in stage 3 is membership in the input plus the category
predicate. -/
theorem mem_courseCategoryStage (ctx : QueryContext) (q : List Enrollment)
    (e : Enrollment) :
    e ∈ courseCategoryStage ctx q ↔
      e ∈ q ∧ courseCategoryPass ctx e = true := by
  unfold courseCategoryStage courseCategoryPass
  rcases hc : ctx.filters.courseCategory with _ | c
  · simp
  · by_cases he : c == "" <;> simp [he, List.mem_filter]

/-- Membership in stage 4 is membership in the input plus the search
predicate. -/
theorem mem_searchStage (ctx : QueryContext) (q : List Enrollment)
    (e : Enrollment) :
    e ∈ searchStage ctx q ↔ e ∈ q ∧ searchPass ctx e = true := by
  unfold searchStage searchPass
  rcases hs : ctx.filters.search with _ | s
  · simp
  · by_cases he : s == "" <;> simp [he, List.mem_filter]

/-- Characterization of `filteredEnrollments`: a row is in the output iff
it is an input row passing all four (conditionally applicable) filters. -/
theorem mem_filteredEnrollments_iff (ctx : QueryContext) (e : Enrollment) :
    e ∈ filteredEnrollments ctx ↔
      e ∈ ctx.data.enrollments ∧ statusPass ctx e = true ∧
        departmentPass ctx e = true ∧ courseCategoryPass ctx e = true ∧
        searchPass ctx e = true := by
  unfold filteredEnrollments
  rw [mem_searchStage, mem_courseCategoryStage, mem_departmentStage,
    mem_statusStage]
  tauto

/-- Inserting preserves the elements of the list. -/
theorem mem_insertDescBy {α β : Type} [LinearOrder β] (key : α → β)
    (a x : α) (l : List α) :
    x ∈ insertDescBy key a l ↔ x = a ∨ x ∈ l := by
  induction l with
  | nil => simp [insertDescBy]
  | cons b bs ih =>
      unfold insertDescBy
      by_cases h : key b ≤ key a
      · simp [h]
      · simp [h, ih]
        tauto

/-- The stable descending sort preserves the elements of the list. -/
theorem mem_sortDescBy {α β : Type} [LinearOrder β] (key : α → β) (x : α)
    (l : List α) :
    x ∈ sortDescBy key l ↔ x ∈ l := by
  induction l with
  | nil => simp [sortDescBy]
  | cons a as ih => simp [sortDescBy, mem_insertDescBy, ih]

/-- C5: Filter conjunction — for every database, filter context and row,
the row appears in the output of `filteredEnrollments` iff it is a database
row satisfying every applicable filter (status, department, courseCategory,
search); the applicable filters combine by logical AND, never OR. -/
theorem C5_filters_conjoined (ctx : QueryContext) (e : Enrollment) :
    e ∈ filteredEnrollments ctx ↔
      e ∈ ctx.data.enrollments ∧ statusPass ctx e = true ∧
        departmentPass ctx e = true ∧ courseCategoryPass ctx e = true ∧
        searchPass ctx e = true :=
  mem_filteredEnrollments_iff ctx e

/-- C9: Filter identity element — with status `'all'` or unset and no
department, category or search filter, `filteredEnrollments` returns the
database's enrollments list unchanged, in its original order. -/
theorem C9_no_filters_identity (ctx : QueryContext)
    (hs : ctx.filters.status = none ∨
      ctx.filters.status = some StatusFilter.all)
    (hd : ctx.filters.department = none)
    (hc : ctx.filters.courseCategory = none)
    (hq : ctx.filters.search = none) :
    filteredEnrollments ctx = ctx.data.enrollments := by
  unfold filteredEnrollments searchStage courseCategoryStage departmentStage
    statusStage
  rcases hs with h | h <;> rw [hq, hc, hd, h]

/-- Witness for C9 at a concrete database and all-unset filters. -/
theorem C9_no_filters_identity_witness :
    filteredEnrollments (createQueryContext witnessDb noFilters) =
      witnessDb.enrollments :=
  C9_no_filters_identity (createQueryContext witnessDb noFilters)
    (Or.inl rfl) rfl rfl rfl

/-- C6: Missing row fields are tolerated — a row whose `userId` resolves to
no user while a department filter is active, or whose `courseId` resolves
to no course while a courseCategory filter is active, is excluded from the
output (the lookup miss makes the filter test false; no error is possible
since the model is a total function). -/
theorem C6_missing_row_fields_excluded :
    (∀ (ctx : QueryContext) (e : Enrollment) (d : String),
        ctx.filters.department = some d → d ≠ "" →
        usersById ctx.data e.userId = none →
        e ∉ filteredEnrollments ctx) ∧
    (∀ (ctx : QueryContext) (e : Enrollment) (c : String),
        ctx.filters.courseCategory = some c → c ≠ "" →
        coursesById ctx.data e.courseId = none →
        e ∉ filteredEnrollments ctx) := by
  constructor
  · intro ctx e d hd hne hu hmem
    have h := ((mem_filteredEnrollments_iff ctx e).mp hmem).2.2.1
    simp [departmentPass, hd, hne, departmentTest, hu] at h
  · intro ctx e c hc hne hcu hmem
    have h := ((mem_filteredEnrollments_iff ctx e).mp hmem).2.2.2.1
    simp [courseCategoryPass, hc, hne, courseCategoryTest, hcu] at h

/-- Witness for C6: the dangling enrollment is excluded under an active
department filter. -/
theorem C6_missing_row_fields_excluded_witness :
    ghostEnrollment ∉
      filteredEnrollments (createQueryContext witnessDb deptFilters) :=
  C6_missing_row_fields_excluded.1
    (createQueryContext witnessDb deptFilters) ghostEnrollment
    "Engineering" rfl (by decide) (by decide)

/-- C10: Search filter semantics — with a non-empty search string as the
only active filter, a row is kept iff the lowered search string occurs in
the lowered full name of its user or the lowered title of its course; and
under any context with a non-empty search string, a row whose `userId` and
`courseId` both fail to resolve is excluded (the match is total, hence
never raises). -/
theorem C10_search_filter_semantics :
    (∀ (ctx : QueryContext) (s : String) (e : Enrollment),
        ctx.filters.search = some s → s ≠ "" →
        (ctx.filters.status = none ∨
          ctx.filters.status = some StatusFilter.all) →
        ctx.filters.department = none →
        ctx.filters.courseCategory = none →
        (e ∈ filteredEnrollments ctx ↔
          e ∈ ctx.data.enrollments ∧
            searchMatches ctx (toLowerStr s) e = true)) ∧
    (∀ (ctx : QueryContext) (s : String) (e : Enrollment),
        ctx.filters.search = some s → s ≠ "" →
        usersById ctx.data e.userId = none →
        coursesById ctx.data e.courseId = none →
        e ∉ filteredEnrollments ctx) := by
  constructor
  · intro ctx s e hq hne hs hd hc
    rw [mem_filteredEnrollments_iff]
    rcases hs with h | h <;>
      simp [statusPass, h, departmentPass, hd, courseCategoryPass, hc,
        searchPass, hq, hne]
  · intro ctx s e hq hne hu hcu hmem
    have h := ((mem_filteredEnrollments_iff ctx e).mp hmem).2.2.2.2
    simp [searchPass, hq, hne, searchMatches, hu, hcu] at h

/-- Witness for C10 at a concrete database with search string `alice`. -/
theorem C10_search_filter_semantics_witness :
    aliceEnrollment ∈
        filteredEnrollments (createQueryContext witnessDb searchFilters) ↔
      aliceEnrollment ∈ witnessDb.enrollments ∧
        searchMatches (createQueryContext witnessDb searchFilters)
          (toLowerStr "alice") aliceEnrollment = true :=
  C10_search_filter_semantics.1
    (createQueryContext witnessDb searchFilters) "alice" aliceEnrollment
    rfl (by decide) (Or.inl rfl) rfl rfl

/-- C2 counterexample: the repository's average helpers applied to an empty
sequence of numbers return the number `0`, not null — `average` by its
explicit `count === 0` branch, `safeAverage` by its `Number.isFinite`
guard.  Their return type is plain `number`; no null is produced. -/
theorem C2_average_empty_counterexample :
    average ([] : List ℚ) = 0 ∧ safeAverage ([] : List ℚ) = 0 := by
  exact ⟨by decide, by decide⟩

/-- C2 (amended): aggregation over an empty row set yields the code's
defaults — a sum aggregates to 0, a count to 0, and the average helpers
return 0 (not null) on an empty sequence. -/
theorem C2_empty_aggregation_defaults (ctx : QueryContext)
    (h : filteredEnrollments ctx = []) :
    totalLoggedHours ctx = 0 ∧ totalEnrollmentCount ctx = 0 ∧
      completedEnrollmentCount ctx = 0 ∧ completedAverageScore ctx = 0 ∧
      average ([] : List ℚ) = 0 ∧ safeAverage ([] : List ℚ) = 0 := by
  unfold totalLoggedHours totalEnrollmentCount completedEnrollmentCount
    completedAverageScore completedEnrollments enrollmentsByStatus
  rw [h]
  exact ⟨rfl, rfl, rfl, rfl, rfl, rfl⟩

/-- Witness for C2's amended theorem at the empty database. -/
theorem C2_empty_aggregation_defaults_witness :
    totalLoggedHours (createQueryContext emptyDb noFilters) = 0 ∧
      totalEnrollmentCount (createQueryContext emptyDb noFilters) = 0 ∧
      completedEnrollmentCount (createQueryContext emptyDb noFilters) = 0 ∧
      completedAverageScore (createQueryContext emptyDb noFilters) = 0 ∧
      average ([] : List ℚ) = 0 ∧ safeAverage ([] : List ℚ) = 0 :=
  C2_empty_aggregation_defaults (createQueryContext emptyDb noFilters)
    (by decide)

/-- C7: Missing-data conditions never throw — every lookup miss resolves to
the documented default label: the completed-total detail row of an
enrollment with unresolvable user and course carries `'Unknown'`, `'N/A'`
and `'Unknown'` (keeping the row's own score); the proctor group key of an
unresolvable proctor is `'Unknown'`; and the detail row of any completed
enrollment is still produced in the projected row list.  Every definition
involved is a total function, so no evaluation can throw. -/
theorem C7_missing_lookups_resolve_to_defaults :
    (∀ (ctx : QueryContext) (e : Enrollment),
        usersById ctx.data e.userId = none →
        coursesById ctx.data e.courseId = none →
        (completedDetailRowOf ctx e).Learner = "Unknown" ∧
          (completedDetailRowOf ctx e).Department = "N/A" ∧
          (completedDetailRowOf ctx e).Course = "Unknown" ∧
          (completedDetailRowOf ctx e).Score = e.score) ∧
    (∀ (ctx : QueryContext) (e : Enrollment),
        proctorsById ctx.data e.proctorId = none →
        proctorName ctx e = "Unknown") ∧
    (∀ (ctx : QueryContext) (e : Enrollment),
        e ∈ completedEnrollments ctx →
        completedDetailRowOf ctx e ∈
          (sortDescBy (fun x => x.completedAt.getD "")
            (completedEnrollments ctx)).map (completedDetailRowOf ctx)) := by
  refine ⟨?_, ?_, ?_⟩
  · intro ctx e hu hc
    simp [completedDetailRowOf, hu, hc]
  · intro ctx e hp
    simp [proctorName, hp]
  · intro ctx e he
    exact List.mem_map_of_mem _ ((mem_sortDescBy _ _ _).mpr he)

/-- Witness for C7 at the dangling enrollment of the witness database. -/
theorem C7_missing_lookups_resolve_to_defaults_witness :
    (completedDetailRowOf (createQueryContext witnessDb noFilters)
        ghostEnrollment).Learner = "Unknown" ∧
      (completedDetailRowOf (createQueryContext witnessDb noFilters)
        ghostEnrollment).Department = "N/A" ∧
      (completedDetailRowOf (createQueryContext witnessDb noFilters)
        ghostEnrollment).Course = "Unknown" ∧
      (completedDetailRowOf (createQueryContext witnessDb noFilters)
        ghostEnrollment).Score = ghostEnrollment.score :=
  C7_missing_lookups_resolve_to_defaults.1
    (createQueryContext witnessDb noFilters) ghostEnrollment
    (by decide) (by decide)

/-- C8: failureRate is guarded and bounded — it returns 0 when the filtered
total is 0 and `failed / total` otherwise; the failed rows are a subset of
the filtered rows, so the value always lies in `[0, 1]` and the division
(reached only under `total ≠ 0`) never divides by zero. -/
theorem C8_failureRate_guarded_and_bounded (ctx : QueryContext) :
    failureRate ctx =
      (if totalEnrollmentCount ctx = 0 then 0
        else (failedEnrollmentCount ctx : ℚ) /
          (totalEnrollmentCount ctx : ℚ)) ∧
    failedEnrollmentCount ctx ≤ totalEnrollmentCount ctx ∧
    0 ≤ failureRate ctx ∧ failureRate ctx ≤ 1 := by
  have hle : failedEnrollmentCount ctx ≤ totalEnrollmentCount ctx := by
    unfold failedEnrollmentCount totalEnrollmentCount failedEnrollments
      enrollmentsByStatus
    exact List.length_filter_le _ _
  refine ⟨rfl, hle, ?_, ?_⟩
  · unfold failureRate
    split
    · norm_num
    · positivity
  · unfold failureRate
    split
    · norm_num
    · rename_i h
      have hpos : (0 : ℚ) < (totalEnrollmentCount ctx : ℚ) := by
        exact_mod_cast Nat.pos_of_ne_zero h
      rw [div_le_one hpos]
      exact_mod_cast hle

/-- C4: Determinism — the top-level dashboard run and each card's
`summaryQuery` and `detailQuery` produce identical values and identical
result-row sequences when evaluated twice over the same database and
filters; the whole pipeline is a pure function of its input. -/
theorem C4_determinism (db : MiniDatabase) (fs : DashboardFilters) :
    runDashboard db fs = runDashboard db fs ∧
    completedTotalSummary (createQueryContext db fs) =
      completedTotalSummary (createQueryContext db fs) ∧
    completedTotalDetail (createQueryContext db fs) =
      completedTotalDetail (createQueryContext db fs) ∧
    averageScoreSummary (createQueryContext db fs) =
      averageScoreSummary (createQueryContext db fs) ∧
    averageScoreDetail (createQueryContext db fs) =
      averageScoreDetail (createQueryContext db fs) ∧
    categoryLeadersSummary (createQueryContext db fs) =
      categoryLeadersSummary (createQueryContext db fs) ∧
    categoryLeadersDetail (createQueryContext db fs) =
      categoryLeadersDetail (createQueryContext db fs) ∧
    learningHoursSummary (createQueryContext db fs) =
      learningHoursSummary (createQueryContext db fs) ∧
    learningHoursDetail (createQueryContext db fs) =
      learningHoursDetail (createQueryContext db fs) ∧
    proctorUtilizationSummary (createQueryContext db fs) =
      proctorUtilizationSummary (createQueryContext db fs) ∧
    proctorUtilizationDetail (createQueryContext db fs) =
      proctorUtilizationDetail (createQueryContext db fs) :=
  ⟨rfl, rfl, rfl, rfl, rfl, rfl, rfl, rfl, rfl, rfl, rfl⟩

/-- Restricting a context to its in-grain entries does not change the row
test: out-of-grain entries are skipped either way. -/
theorem rowPassesContext_restrict (ctx : FilterContext)
    (grain : List String) (r : FactRow) :
    rowPassesContext (ctx.filter (inGrain grain)) grain r =
      rowPassesContext ctx grain r := by
  induction ctx with
  | nil => rfl
  | cons p t ih =>
      unfold rowPassesContext at ih ⊢
      by_cases h : inGrain grain p
      · rw [List.filter_cons, if_pos h, List.all_cons, List.all_cons, ih]
      · rw [List.filter_cons, if_neg h, List.all_cons, ih]
        have he : entryPasses grain r p = true := by
          unfold entryPasses
          simp [h]
        rw [he, Bool.true_and]

/-- C1: Grain ignores out-of-grain filters — filtering fact rows through a
context is the same as filtering them through the context restricted to
the metric's grain, so every context key outside the grain has no effect;
in particular, under grain `['year','regionId']` the context
`{year:2025, regionId:'NA', productId:1}` evaluates exactly like
`{year:2025, regionId:'NA'}` on every row set. -/
theorem C1_grain_ignores_out_of_grain_filters :
    (∀ (rows : List FactRow) (ctx : FilterContext) (grain : List String),
        applyContextToFact rows ctx grain =
          applyContextToFact rows (ctx.filter (inGrain grain)) grain) ∧
    (∀ rows : List FactRow,
        applyContextToFact rows ctxYearRegionProduct grainYearRegion =
          applyContextToFact rows ctxYearRegion grainYearRegion) := by
  have key : ∀ (rows : List FactRow) (ctx : FilterContext)
      (grain : List String),
      applyContextToFact rows ctx grain =
        applyContextToFact rows (ctx.filter (inGrain grain)) grain := by
    intro rows ctx grain
    unfold applyContextToFact
    exact
      (List.filter_congr
        (fun r _ => rowPassesContext_restrict ctx grain r)).symm
  refine ⟨key, ?_⟩
  intro rows
  have h1 := key rows ctxYearRegionProduct grainYearRegion
  have h3 : ctxYearRegionProduct.filter (inGrain grainYearRegion) =
      ctxYearRegion.filter (inGrain grainYearRegion) := by
    decide
  rw [h1, h3, ← key rows ctxYearRegion grainYearRegion]

/-- C3 evaluated at the failing input: the two example contexts hold the
same key-value pairs in opposite insertion order, yet the PRD's
`cacheKey = metricName + JSON.stringify(context)` yields two different
keys, so the two evaluations populate two distinct cache entries instead
of hitting one shared entry. -/
theorem C3_cacheKey_depends_on_insertion_order :
    ctxRegionYear = ctxYearRegion.reverse ∧
    cacheKey "totalSalesAmount" ctxYearRegion ≠
      cacheKey "totalSalesAmount" ctxRegionYear := by
  exact ⟨by decide, by decide⟩
